import Mathlib

/-!
Verification of the patrol-master store-locator core against its
natural-language specification.  The definitions below are shallow
embeddings of the JavaScript source (src/unnamed/part_000 and the
client variants in src/src/client/main.jsx); JavaScript numbers are
modelled as exact rationals where the code only moves them around,
and as real numbers where the code does trigonometry.
-/

open Real

/-- JS Math.atan2 semantics on real numbers (ignoring signed zero and NaN):
the angle of the point (x, y), in the range (-pi, pi]. -/
noncomputable def atan2 (y x : ℝ) : ℝ :=
  if 0 < x then Real.arctan (y / x)
  else if x < 0 then
    (if 0 ≤ y then Real.arctan (y / x) + Real.pi else Real.arctan (y / x) - Real.pi)
  else
    (if 0 < y then Real.pi / 2 else if y < 0 then -(Real.pi / 2) else 0)

/-- Shallow embedding of getDistance (src/unnamed/part_000 lines 20-26,
identical in main.jsx lines 12-18, 501-507, 1259-1265): the haversine
formula with Earth radius 6371 km, inputs in degrees. -/
noncomputable def getDistance (lat1 lon1 lat2 lon2 : ℝ) : ℝ :=
  let R : ℝ := 6371
  let dLat := (lat2 - lat1) * (Real.pi / 180)
  let dLon := (lon2 - lon1) * (Real.pi / 180)
  let a := Real.sin (dLat / 2) * Real.sin (dLat / 2) +
    Real.cos (lat1 * (Real.pi / 180)) * Real.cos (lat2 * (Real.pi / 180)) *
      Real.sin (dLon / 2) * Real.sin (dLon / 2)
  R * 2 * atan2 (Real.sqrt a) (Real.sqrt (1 - a))

lemma getDistance_eq (lat1 lon1 lat2 lon2 : ℝ) :
    getDistance lat1 lon1 lat2 lon2 =
      6371 * 2 * atan2
        (Real.sqrt (Real.sin ((lat2 - lat1) * (Real.pi / 180) / 2) *
            Real.sin ((lat2 - lat1) * (Real.pi / 180) / 2) +
          Real.cos (lat1 * (Real.pi / 180)) * Real.cos (lat2 * (Real.pi / 180)) *
            Real.sin ((lon2 - lon1) * (Real.pi / 180) / 2) *
            Real.sin ((lon2 - lon1) * (Real.pi / 180) / 2)))
        (Real.sqrt (1 - (Real.sin ((lat2 - lat1) * (Real.pi / 180) / 2) *
            Real.sin ((lat2 - lat1) * (Real.pi / 180) / 2) +
          Real.cos (lat1 * (Real.pi / 180)) * Real.cos (lat2 * (Real.pi / 180)) *
            Real.sin ((lon2 - lon1) * (Real.pi / 180) / 2) *
            Real.sin ((lon2 - lon1) * (Real.pi / 180) / 2)))) := rfl

lemma arctan_nonneg_of_nonneg {z : ℝ} (h : 0 ≤ z) : 0 ≤ Real.arctan z := by
  have h2 : Real.arctan 0 ≤ Real.arctan z := arctan_strictMono.monotone h
  simpa [Real.arctan_zero] using h2

lemma atan2_nonneg (y x : ℝ) (hy : 0 ≤ y) (hx : 0 ≤ x) : 0 ≤ atan2 y x := by
  unfold atan2
  split_ifs with h1 h2 h3 h4
  · exact arctan_nonneg_of_nonneg (div_nonneg hy h1.le)
  all_goals first
    | exact le_refl 0
    | linarith [Real.pi_pos]

/-- C8: getDistance is nonnegative for all real coordinate inputs, it is
exactly symmetric under swapping the two points (hence symmetric within any
floating-point tolerance), and the distance from a point to itself is 0. -/
theorem getDistance_nonneg_symm_self (lat1 lon1 lat2 lon2 : ℝ) :
    0 ≤ getDistance lat1 lon1 lat2 lon2 ∧
    getDistance lat1 lon1 lat2 lon2 = getDistance lat2 lon2 lat1 lon1 ∧
    getDistance lat1 lon1 lat1 lon1 = 0 := by
  refine ⟨?_, ?_, ?_⟩
  · rw [getDistance_eq]
    exact mul_nonneg (by norm_num)
      (atan2_nonneg _ _ (Real.sqrt_nonneg _) (Real.sqrt_nonneg _))
  · rw [getDistance_eq, getDistance_eq]
    have ha : Real.sin ((lat1 - lat2) * (Real.pi / 180) / 2) *
          Real.sin ((lat1 - lat2) * (Real.pi / 180) / 2) +
        Real.cos (lat2 * (Real.pi / 180)) * Real.cos (lat1 * (Real.pi / 180)) *
          Real.sin ((lon1 - lon2) * (Real.pi / 180) / 2) *
          Real.sin ((lon1 - lon2) * (Real.pi / 180) / 2) =
        Real.sin ((lat2 - lat1) * (Real.pi / 180) / 2) *
          Real.sin ((lat2 - lat1) * (Real.pi / 180) / 2) +
        Real.cos (lat1 * (Real.pi / 180)) * Real.cos (lat2 * (Real.pi / 180)) *
          Real.sin ((lon2 - lon1) * (Real.pi / 180) / 2) *
          Real.sin ((lon2 - lon1) * (Real.pi / 180) / 2) := by
      rw [show (lat1 - lat2) * (Real.pi / 180) / 2 =
            -((lat2 - lat1) * (Real.pi / 180) / 2) by ring,
          show (lon1 - lon2) * (Real.pi / 180) / 2 =
            -((lon2 - lon1) * (Real.pi / 180) / 2) by ring,
          Real.sin_neg, Real.sin_neg]
      ring
    rw [ha]
  · rw [getDistance_eq]
    rw [show (lat1 - lat1) * (Real.pi / 180) / 2 = 0 by ring,
        show (lon1 - lon1) * (Real.pi / 180) / 2 = 0 by ring,
        Real.sin_zero]
    norm_num [atan2, Real.sqrt_one, Real.arctan_zero]

/-! ### Data model

JavaScript number values that the code merely stores and compares are
modelled as exact rationals; a field that may be missing from a raw JSON
object is an Option. -/

/-- A raw store entry as found in the nested JSON data
(the RawStore shape of the API contract). -/
structure RawStore where
  id : Option String
  name : String
  city : String
  area : String
  address : String
  lat : Option ℚ
  lng : Option ℚ
deriving DecidableEq

/-- A flattened store record as produced by flattenStoreData.  The
distance attribute is attached only by the live-mode result-set
derivation, hence an Option. -/
structure Store where
  id : String
  name : String
  city : String
  area : String
  address : String
  lat : ℚ
  lng : ℚ
  distance : Option ℝ

/-- The nested region-to-subregion-to-data JSON mapping, with keys in
insertion order (the order JS for-in iteration visits string keys);
a subregion whose data field is missing is modelled by none. -/
abbrev NestedData := List (String × List (String × Option (List RawStore)))

/-- JS truthiness of a possibly-missing numeric field: a number is truthy
iff it is present and non-zero (NaN, which is also falsy, has no rational
counterpart and is not modelled). -/
def truthyQ : Option ℚ → Bool
  | some x => decide (x ≠ 0)
  | none => false

/-- The concatenation loop of flattenStoreData (src/unnamed/part_000
lines 30-39): walk regions, then subregions, concatenating every present
data array. -/
def collectStores (nested : NestedData) : List RawStore :=
  nested.foldl
    (fun acc c =>
      c.2.foldl
        (fun acc2 a =>
          match a.2 with
          | some d => acc2 ++ d
          | none => acc2)
        acc)
    []

/-- The filter predicate of flattenStoreData line 41: s.lat, s.lng and
s.name must all be truthy. -/
def codeAccept (s : RawStore) : Bool :=
  truthyQ s.lat && truthyQ s.lng && decide (s.name ≠ "")

/-- The template literal of flattenStoreData line 43 producing the
fallback identifier from the city field, the area field and the running
index in the filtered flat list. -/
def mkId (c a : String) (i : ℕ) : String :=
  c ++ "-" ++ a ++ "-" ++ Nat.repr i

/-- JS s.id or-else fallback: an absent or empty id string is falsy. -/
def idOr (o : Option String) (gen : String) : String :=
  match o with
  | some s => if s = "" then gen else s
  | none => gen

/-- The map step of flattenStoreData lines 41-44: spread the raw entry and
attach the id. -/
def mkStore (i : ℕ) (s : RawStore) : Store :=
  { id := idOr s.id (mkId s.city s.area i)
    name := s.name
    city := s.city
    area := s.area
    address := s.address
    lat := s.lat.getD 0
    lng := s.lng.getD 0
    distance := none }

/-- JS Array.prototype.map with the running element index, as used by
flattenStoreData on the filtered list. -/
def attachIds : ℕ → List RawStore → List Store
  | _, [] => []
  | i, s :: t => mkStore i s :: attachIds (i + 1) t

/-- Shallow embedding of flattenStoreData (src/unnamed/part_000 lines
29-45, identical in main.jsx lines 21-37): concatenate all data arrays,
filter by truthiness of lat, lng and name, then attach identifiers. -/
def flattenStoreData (nested : NestedData) : List Store :=
  attachIds 0 ((collectStores nested).filter codeAccept)

/-- Modelled from the spec (section 4.1): the acceptance rule in the
words of the specification, used as a comparison point for C5: a raw
entry is accepted iff it carries numeric lat and lng and a non-empty
name. -/
def specAccept (s : RawStore) : Prop :=
  s.lat ≠ none ∧ s.lng ≠ none ∧ s.name ≠ ""

instance (s : RawStore) : Decidable (specAccept s) := by
  unfold specAccept; infer_instance

/-! ### Decimal representation facts

Facts about the core decimal printer Nat.repr, needed to show that the
generated fallback identifiers are pairwise distinct. -/

lemma toDigitsCore_acc (b fuel : ℕ) : ∀ (n : ℕ) (ds : List Char),
    Nat.toDigitsCore b fuel n ds = Nat.toDigitsCore b fuel n [] ++ ds := by
  induction fuel with
  | zero => intro n ds; simp [Nat.toDigitsCore]
  | succ f ih =>
    intro n ds
    simp only [Nat.toDigitsCore]
    by_cases h : n / b = 0
    · simp [h]
    · simp only [if_neg h]
      rw [ih (n / b) (Nat.digitChar (n % b) :: ds),
        ih (n / b) [Nat.digitChar (n % b)]]
      simp

lemma toDigitsCore_fuel (b : ℕ) (hb : 2 ≤ b) :
    ∀ (n f g : ℕ), n < f → n < g →
      Nat.toDigitsCore b f n [] = Nat.toDigitsCore b g n [] := by
  intro n
  induction n using Nat.strong_induction_on with
  | _ n ih =>
    intro f g hf hg
    obtain ⟨f1, rfl⟩ : ∃ f1, f = f1 + 1 := ⟨f - 1, by omega⟩
    obtain ⟨g1, rfl⟩ : ∃ g1, g = g1 + 1 := ⟨g - 1, by omega⟩
    simp only [Nat.toDigitsCore]
    by_cases h : n / b = 0
    · simp [h]
    · simp only [if_neg h]
      have hn : 0 < n := Nat.pos_of_ne_zero (fun h0 => h (by simp [h0]))
      have hdiv : n / b < n := Nat.div_lt_self hn (by omega)
      rw [toDigitsCore_acc b f1 (n / b) [Nat.digitChar (n % b)],
        toDigitsCore_acc b g1 (n / b) [Nat.digitChar (n % b)],
        ih (n / b) hdiv f1 g1 (lt_of_lt_of_le hdiv (Nat.lt_succ_iff.mp hf))
          (lt_of_lt_of_le hdiv (Nat.lt_succ_iff.mp hg))]

lemma toDigits_recursion (n : ℕ) :
    Nat.toDigits 10 n =
      if n < 10 then [Nat.digitChar n]
      else Nat.toDigits 10 (n / 10) ++ [Nat.digitChar (n % 10)] := by
  by_cases h : n < 10
  · rw [if_pos h]
    unfold Nat.toDigits
    simp only [Nat.toDigitsCore]
    rw [if_pos (Nat.div_eq_of_lt h), Nat.mod_eq_of_lt h]
  · rw [if_neg h]
    have h0 : ¬ n / 10 = 0 := by omega
    have hdiv : n / 10 < n := Nat.div_lt_self (by omega) (by omega)
    have hL : Nat.toDigits 10 n =
        Nat.toDigitsCore 10 n (n / 10) [Nat.digitChar (n % 10)] := by
      unfold Nat.toDigits
      simp only [Nat.toDigitsCore]
      rw [if_neg h0]
    rw [hL, toDigitsCore_acc 10 n (n / 10) [Nat.digitChar (n % 10)],
      toDigitsCore_fuel 10 (by omega) (n / 10) n (n / 10 + 1) hdiv (Nat.lt_succ_self _)]
    rfl

lemma toDigits_ne_nil (n : ℕ) : Nat.toDigits 10 n ≠ [] := by
  rw [toDigits_recursion]
  by_cases h : n < 10 <;> simp [h]

lemma digitChar_lt_ten_ne_dash : ∀ n < 10, Nat.digitChar n ≠ ('-') := by decide

lemma digitChar_lt_ten_inj :
    ∀ m < 10, ∀ n < 10, Nat.digitChar m = Nat.digitChar n → m = n := by decide

lemma toDigits_no_dash : ∀ n : ℕ, ('-') ∉ Nat.toDigits 10 n := by
  intro n
  induction n using Nat.strong_induction_on with
  | _ n ih =>
    rw [toDigits_recursion]
    by_cases h : n < 10
    · simp only [if_pos h, List.mem_singleton]
      exact fun hc => digitChar_lt_ten_ne_dash n h hc.symm
    · simp only [if_neg h, List.mem_append, List.mem_singleton]
      push_neg
      refine ⟨ih (n / 10) (Nat.div_lt_self (by omega) (by omega)), ?_⟩
      exact fun hc => digitChar_lt_ten_ne_dash (n % 10) (Nat.mod_lt n (by omega)) hc.symm

lemma toDigits_inj : ∀ m n : ℕ, Nat.toDigits 10 m = Nat.toDigits 10 n → m = n := by
  intro m
  induction m using Nat.strong_induction_on with
  | _ m ih =>
    intro n h
    rw [toDigits_recursion m, toDigits_recursion n] at h
    by_cases hm : m < 10 <;> by_cases hn : n < 10
    · rw [if_pos hm, if_pos hn] at h
      exact digitChar_lt_ten_inj m hm n hn (by simpa using h)
    · rw [if_pos hm, if_neg hn] at h
      obtain ⟨c, t, hct⟩ := List.exists_cons_of_ne_nil (toDigits_ne_nil (n / 10))
      rw [hct] at h
      simp at h
    · rw [if_neg hm, if_pos hn] at h
      obtain ⟨c, t, hct⟩ := List.exists_cons_of_ne_nil (toDigits_ne_nil (m / 10))
      rw [hct] at h
      simp at h
    · rw [if_neg hm, if_neg hn] at h
      obtain ⟨h1, h2⟩ := List.append_inj' h (by simp)
      have hdiv := ih (m / 10) (Nat.div_lt_self (by omega) (by omega)) (n / 10) h1
      have hmod := digitChar_lt_ten_inj (m % 10) (Nat.mod_lt m (by omega)) (n % 10)
        (Nat.mod_lt n (by omega)) (by simpa using h2)
      omega

lemma eq_of_append_dash : ∀ (a1 a2 r1 r2 : List Char),
    ('-') ∉ a1 → ('-') ∉ a2 → a1 ++ ('-') :: r1 = a2 ++ ('-') :: r2 →
    a1 = a2 ∧ r1 = r2 := by
  intro a1
  induction a1 with
  | nil =>
    intro a2 r1 r2 _ h2 h
    cases a2 with
    | nil => simpa using h
    | cons c t =>
      simp only [List.mem_cons, not_or] at h2
      simp only [List.nil_append, List.cons_append, List.cons.injEq] at h
      exact absurd h.1 h2.1
  | cons c t ih =>
    intro a2 r1 r2 h1 h2 h
    cases a2 with
    | nil =>
      simp only [List.mem_cons, not_or] at h1
      simp only [List.nil_append, List.cons_append, List.cons.injEq] at h
      exact absurd h.1.symm h1.1
    | cons c2 t2 =>
      simp only [List.mem_cons, not_or] at h1 h2
      simp only [List.cons_append, List.cons.injEq] at h
      obtain ⟨hc, ht⟩ := h
      have := ih t2 r1 r2 h1.2 h2.2 ht
      exact ⟨by rw [hc, this.1], this.2⟩

lemma mkId_inj_index (c1 a1 c2 a2 : String) (i j : ℕ)
    (h : mkId c1 a1 i = mkId c2 a2 j) : i = j := by
  have hd := congrArg String.data h
  simp only [mkId, String.data_append] at hd
  have hrepr1 : (Nat.repr i).data = Nat.toDigits 10 i := rfl
  have hrepr2 : (Nat.repr j).data = Nat.toDigits 10 j := rfl
  rw [hrepr1, hrepr2] at hd
  have hr := congrArg List.reverse hd
  simp only [List.reverse_append, List.reverse_singleton, List.append_assoc,
    List.singleton_append] at hr
  have hmain := eq_of_append_dash (Nat.toDigits 10 i).reverse (Nat.toDigits 10 j).reverse
    (a1.data.reverse ++ ('-') :: c1.data.reverse)
    (a2.data.reverse ++ ('-') :: c2.data.reverse)
    (by simpa using toDigits_no_dash i)
    (by simpa using toDigits_no_dash j)
    (by simpa [List.append_assoc] using hr)
  exact toDigits_inj i j (by
    have := congrArg List.reverse hmain.1
    simpa using this)

/-! ### C5 and C6: normalizer acceptance and identifier uniqueness -/

lemma truthyQ_iff (o : Option ℚ) : truthyQ o = true ↔ (o ≠ none ∧ o ≠ some 0) := by
  cases o <;> simp [truthyQ]

lemma attachIds_map_fields (l : List RawStore) :
    ∀ k : ℕ,
      (attachIds k l).map (fun st => (st.name, st.lat, st.lng, st.city, st.area)) =
      l.map (fun s => (s.name, s.lat.getD 0, s.lng.getD 0, s.city, s.area)) := by
  induction l with
  | nil => intro k; simp [attachIds]
  | cons s t ih => intro k; simp [attachIds, mkStore, ih (k + 1)]

/-- C5 (amended): a raw entry survives the normalizer filter iff its lat is
present and non-zero, its lng is present and non-zero, and its name is
non-empty; the output records are exactly the accepted raw entries in
order, with all rejected entries silently dropped. -/
theorem flattenStoreData_acceptance :
    (∀ s : RawStore, codeAccept s = true ↔
      (specAccept s ∧ s.lat ≠ some 0 ∧ s.lng ≠ some 0)) ∧
    (∀ nested : NestedData,
      (flattenStoreData nested).map (fun st => (st.name, st.lat, st.lng, st.city, st.area)) =
      ((collectStores nested).filter codeAccept).map
        (fun s => (s.name, s.lat.getD 0, s.lng.getD 0, s.city, s.area))) := by
  constructor
  · intro s
    simp only [codeAccept, Bool.and_eq_true, decide_eq_true_eq, truthyQ_iff, specAccept]
    tauto
  · intro nested
    unfold flattenStoreData
    exact attachIds_map_fields _ 0

/-- A concrete in-range raw entry. -/
def inRangeEntry : RawStore :=
  { id := none, name := "W", city := "C", area := "A",
    address := "", lat := some 25, lng := some 121 }

/-- Witness for C5: a concrete in-range entry is accepted. -/
theorem flattenStoreData_acceptance_witness :
    codeAccept inRangeEntry = true :=
  (flattenStoreData_acceptance.1 inRangeEntry).mpr (by decide)

/-- A raw entry sitting on the equator, with numeric coordinates and a
non-empty name. -/
def equatorEntry : RawStore :=
  { id := none, name := "EquatorStore", city := "C", area := "A",
    address := "", lat := some 0, lng := some 10 }

/-- A nested dataset holding only the equator entry. -/
def equatorNested : NestedData := [("C", [("A", some [equatorEntry])])]

/-- Counterexample for C5 as stated: the equator entry carries numeric lat
and lng and a non-empty name, yet the normalizer output is empty, because
the JS truthiness test rejects the numeric latitude 0. -/
theorem flattenStoreData_zero_lat_cex :
    specAccept equatorEntry ∧ flattenStoreData equatorNested = [] :=
  ⟨by decide, rfl⟩

lemma mem_attachIds_id (l : List RawStore)
    (hid : ∀ s ∈ l, s.id = none ∨ s.id = some "") :
    ∀ (k : ℕ) (st : Store), st ∈ attachIds k l →
      ∃ c a i, k ≤ i ∧ st.id = mkId c a i := by
  induction l with
  | nil => intro k st hst; simp [attachIds] at hst
  | cons s t ih =>
    intro k st hst
    simp only [attachIds, List.mem_cons] at hst
    rcases hst with rfl | hst
    · refine ⟨s.city, s.area, k, le_refl k, ?_⟩
      rcases hid s (by simp) with h | h <;> simp [mkStore, idOr, h]
    · obtain ⟨c, a, i, hi, heq⟩ :=
        ih (fun x hx => hid x (by simp [hx])) (k + 1) st hst
      exact ⟨c, a, i, by omega, heq⟩

lemma attachIds_ids_nodup (l : List RawStore)
    (hid : ∀ s ∈ l, s.id = none ∨ s.id = some "") :
    ∀ k : ℕ, ((attachIds k l).map (fun st => st.id)).Nodup := by
  induction l with
  | nil => intro k; simp [attachIds]
  | cons s t ih =>
    intro k
    simp only [attachIds, List.map_cons, List.nodup_cons]
    constructor
    · intro hmem
      simp only [List.mem_map] at hmem
      obtain ⟨st, hst, hideq⟩ := hmem
      obtain ⟨c, a, i, hi, heq⟩ :=
        mem_attachIds_id t (fun x hx => hid x (by simp [hx])) (k + 1) st hst
      have hhead : (mkStore k s).id = mkId s.city s.area k := by
        rcases hid s (by simp) with h | h <;> simp [mkStore, idOr, h]
      rw [heq, hhead] at hideq
      have := mkId_inj_index c a s.city s.area i k hideq
      omega
    · exact ih (fun x hx => hid x (by simp [hx])) (k + 1)

/-- C6 (amended): when no raw entry carries an explicit identifier, every
output record receives the generated identifier built from its city field,
its area field and its ordinal index in the filtered flat list, and all
output identifiers are pairwise distinct; identifiers taken verbatim from
the source need not be distinct. -/
theorem flattenStoreData_ids_nodup (nested : NestedData)
    (h : ∀ s ∈ collectStores nested, s.id = none ∨ s.id = some "") :
    ((flattenStoreData nested).map (fun st => st.id)).Nodup := by
  unfold flattenStoreData
  exact attachIds_ids_nodup _ (fun s hs => h s (List.mem_of_mem_filter hs)) 0

/-- A nested dataset with two id-less entries in one subregion. -/
def sampleNoIdNested : NestedData :=
  [("臺北市", [("信義區", some [
    { id := none, name := "StoreOne", city := "臺北市", area := "信義區",
      address := "", lat := some 25, lng := some 121 },
    { id := none, name := "StoreTwo", city := "臺北市", area := "信義區",
      address := "", lat := some 26, lng := some 122 }])])]

/-- Witness for C6: on a concrete dataset without explicit identifiers the
generated identifiers are pairwise distinct. -/
theorem flattenStoreData_ids_nodup_witness :
    (∀ s ∈ collectStores sampleNoIdNested, s.id = none ∨ s.id = some "") ∧
    ((flattenStoreData sampleNoIdNested).map (fun st => st.id)).Nodup :=
  ⟨by decide, flattenStoreData_ids_nodup sampleNoIdNested (by decide)⟩

/-- A nested dataset whose two entries carry the same explicit id. -/
def dupIdNested : NestedData :=
  [("C", [("A", some [
    { id := some "dup", name := "StoreOne", city := "C", area := "A",
      address := "", lat := some 1, lng := some 2 },
    { id := some "dup", name := "StoreTwo", city := "C", area := "A",
      address := "", lat := some 3, lng := some 4 }])])]

/-- Counterexample for C6 as stated: with explicit identifiers taken
verbatim from the source, the output identifiers need not be pairwise
distinct. -/
theorem flattenStoreData_dup_ids_cex :
    (flattenStoreData dupIdNested).map (fun st => st.id) = ["dup", "dup"] ∧
    ¬ ((flattenStoreData dupIdNested).map (fun st => st.id)).Nodup := by
  refine ⟨rfl, ?_⟩
  intro hn
  rw [show (flattenStoreData dupIdNested).map (fun st => st.id) = ["dup", "dup"] from rfl] at hn
  simp at hn

/-! ### Application state and transitions -/

/-- A geographic point object with lat and lng fields. -/
structure Point where
  lat : ℚ
  lng : ℚ
deriving DecidableEq

/-- The camera-follow sub-state of client variant 3 (main.jsx line 1492):
free, locked on the reference point, or compass-follow. -/
inductive FollowMode where
  | free
  | center
  | compass
deriving DecidableEq

/-- The pieces of React state of the App components that the verified
claims touch; each transition updates exactly the fields its source
updates and passes the rest through. -/
structure AppState where
  allStores : List Store
  filteredStores : List Store
  filterCity : String
  filterArea : String
  selectedStore : Option Store
  userLocation : Option Point
  userHeading : Option ℚ
  isWatching : Bool
  proximityRadius : ℚ
  followMode : FollowMode
  isRecenterForced : Bool
  error : String

/-- Fallback city constant (part_000 line 10). -/
def DEFAULT_CITY : String := "臺北市"

/-- Fallback area constant (part_000 line 11). -/
def DEFAULT_AREA : String := "信義區"

/-- Default map latitude (part_000 line 8). -/
def DEFAULT_STATIC_LAT : ℚ := 25.0330

/-- Default map longitude (part_000 line 9). -/
def DEFAULT_STATIC_LNG : ℚ := 121.5654

/-- Maximum zoom level (part_000 line 14). -/
def MAX_ZOOM : ℕ := 18

/-- Static-mode zoom preset (part_000 line 16, main.jsx line 1256). -/
def DEFAULT_STATIC_ZOOM : ℕ := 17

/-- The distance from a reference point to a store record, as the code
computes it: getDistance(location.lat, location.lng, store.lat, store.lng). -/
noncomputable def distTo (loc : Point) (s : Store) : ℝ :=
  getDistance (loc.lat : ℝ) (loc.lng : ℝ) (s.lat : ℝ) (s.lng : ℝ)

/-- One step of the nearest-store loop of findLocationBasedOnStores
(part_000 lines 414-422): skip records whose lat or lng is falsy,
otherwise keep the strictly closer record, so ties keep the first
occurrence.  The accumulator none plays the role of the initial
minDistance of Infinity. -/
noncomputable def nearestStep (loc : Point) (acc : Option (Store × ℝ)) (s : Store) :
    Option (Store × ℝ) :=
  if s.lat ≠ 0 ∧ s.lng ≠ 0 then
    let d := distTo loc s
    match acc with
    | none => some (s, d)
    | some (n, m) => if d < m then some (s, d) else some (n, m)
  else acc

/-- Shallow embedding of findLocationBasedOnStores (part_000 lines
406-425, identical to findNearestStoreLocation in main.jsx lines 870-889
and findLocationBasedOnStores in main.jsx lines 1557-1567): the city and
area of the nearest store, or the default pair when the location is
absent, the store set is empty, or no record has truthy coordinates. -/
noncomputable def findLocationBasedOnStores (allStores : List Store)
    (location : Option Point) : String × String :=
  match location with
  | none => (DEFAULT_CITY, DEFAULT_AREA)
  | some loc =>
    if allStores.length = 0 then (DEFAULT_CITY, DEFAULT_AREA)
    else
      match allStores.foldl (nearestStep loc) none with
      | none => (DEFAULT_CITY, DEFAULT_AREA)
      | some (n, _) => (n.city, n.area)

/-- Shallow embedding of the state updates of startWatchingPosition
(main.jsx lines 900-905, variant 2; variant 3 line 1582 is identical):
clear both filters, clear the selection, enter watching mode, clear the
error banner. -/
def startWatchingPosition (st : AppState) : AppState :=
  { st with
    filterCity := ""
    filterArea := ""
    selectedStore := none
    isWatching := true
    error := "" }

/-- Shallow embedding of the state updates of stopWatchingPosition
(part_000 lines 481-504): leave watching mode, set the filters from the
nearest store to the last known location, clear the selection, force
recentering exactly when a location is known, clear the heading. -/
noncomputable def stopWatchingPosition (st : AppState) : AppState :=
  let p := findLocationBasedOnStores st.allStores st.userLocation
  { st with
    isWatching := false
    filterCity := p.1
    filterArea := p.2
    selectedStore := none
    isRecenterForced := st.userLocation.isSome
    userHeading := none }

/-! ### Result-set derivation -/

/-- The map step of the live branch (part_000 lines 543-546): spread the
record and attach the computed distance. -/
noncomputable def attachDistance (loc : Point) (s : Store) : Store :=
  { s with distance := some (distTo loc s) }

/-- The ascending-by-distance comparison of the live-branch sort
comparator, which subtracts b.distance from a.distance; on the live
branch every record carries a distance, read here with default 0. -/
def distLE (a b : Store) : Prop :=
  a.distance.getD 0 ≤ b.distance.getD 0

noncomputable instance : DecidableRel distLE :=
  fun a b => Real.decidableLE (a.distance.getD 0) (b.distance.getD 0)

instance : IsTotal Store distLE :=
  ⟨fun x y => le_total (x.distance.getD 0) (y.distance.getD 0)⟩

instance : IsTrans Store distLE :=
  ⟨fun _ _ _ hab hbc => le_trans hab hbc⟩

/-- The live branch before sorting (part_000 lines 543-547): attach
distances, then keep only records within the proximity radius. -/
noncomputable def liveKept (loc : Point) (radius : ℚ) (stores : List Store) :
    List Store :=
  (stores.map (attachDistance loc)).filter
    (fun s => decide (s.distance.getD 0 ≤ (radius : ℝ)))

/-- The full live branch (part_000 lines 543-548): the kept records,
stably sorted ascending by distance; insertionSort models the stable
ascending JS Array.prototype.sort with the numeric comparator. -/
noncomputable def liveResults (loc : Point) (radius : ℚ) (stores : List Store) :
    List Store :=
  List.insertionSort distLE (liveKept loc radius stores)

/-- The static branch (part_000 lines 550-558): filter by city if set,
then by area if set, then strip the distance attribute from every
record. -/
def staticResults (st : AppState) : List Store :=
  let r1 := if st.filterCity ≠ "" then
    st.allStores.filter (fun s => s.city == st.filterCity) else st.allStores
  let r2 := if st.filterArea ≠ "" then
    r1.filter (fun s => s.area == st.filterArea) else r1
  r2.map (fun s => { s with distance := none })

/-- Shallow embedding of the result-set derivation effect (part_000 lines
539-561, identical in main.jsx lines 977-1002 and 1639-1651): the live
branch runs exactly when a location is known and watching is on. -/
noncomputable def deriveResults (st : AppState) : List Store :=
  match st.userLocation with
  | some loc =>
    if st.isWatching then liveResults loc st.proximityRadius st.allStores
    else staticResults st
  | none => staticResults st

/-! ### C3: start-tracking clears filters and selection -/

/-- C3: from any Static-mode state, the start-tracking transition clears
the region filter, the subregion filter and the store selection, and
enters Live mode, whatever the prior filter and selection values. -/
theorem startWatching_clears_filters_selection (st : AppState)
    (_h : st.isWatching = false) :
    (startWatchingPosition st).filterCity = "" ∧
    (startWatchingPosition st).filterArea = "" ∧
    (startWatchingPosition st).selectedStore = none ∧
    (startWatchingPosition st).isWatching = true :=
  ⟨rfl, rfl, rfl, rfl⟩

/-- A concrete Static-mode state with both filters set and a selection. -/
def c3SampleStore : Store :=
  { id := "s1", name := "Sample", city := "臺北市", area := "信義區",
    address := "", lat := 25, lng := 121, distance := none }

/-- A concrete Static-mode state for the C3 witness. -/
def c3State : AppState :=
  { allStores := [c3SampleStore], filteredStores := [c3SampleStore],
    filterCity := "臺北市", filterArea := "信義區",
    selectedStore := some c3SampleStore, userLocation := none,
    userHeading := none, isWatching := false, proximityRadius := 5,
    followMode := FollowMode.free, isRecenterForced := false, error := "" }

/-- Witness for C3 at a concrete state. -/
theorem startWatching_clears_filters_selection_witness :
    c3State.isWatching = false ∧
    ((startWatchingPosition c3State).filterCity = "" ∧
     (startWatchingPosition c3State).filterArea = "" ∧
     (startWatchingPosition c3State).selectedStore = none ∧
     (startWatchingPosition c3State).isWatching = true) :=
  ⟨rfl, startWatching_clears_filters_selection c3State rfl⟩

/-! ### C4: stop-tracking sets the filters from the nearest store -/

lemma foldl_nearestStep_acc (loc : Point) :
    ∀ l : List Store, (∀ s ∈ l, s.lat ≠ 0 ∧ s.lng ≠ 0) → ∀ (n : Store) (m : ℝ),
      (l.foldl (nearestStep loc) (some (n, m)) = some (n, m) ∧
        ∀ s ∈ l, m ≤ distTo loc s) ∨
      (∃ pre n2 suf, l = pre ++ n2 :: suf ∧
        l.foldl (nearestStep loc) (some (n, m)) = some (n2, distTo loc n2) ∧
        distTo loc n2 < m ∧
        (∀ s ∈ pre, distTo loc n2 < distTo loc s) ∧
        (∀ s ∈ l, distTo loc n2 ≤ distTo loc s)) := by
  intro l
  induction l with
  | nil => intro _ n m; left; exact ⟨rfl, by simp⟩
  | cons x xs ih =>
    intro hc n m
    have hx := hc x (by simp)
    have hstep : nearestStep loc (some (n, m)) x =
        if distTo loc x < m then some (x, distTo loc x) else some (n, m) := by
      simp [nearestStep, hx]
    rw [List.foldl_cons, hstep]
    by_cases hd : distTo loc x < m
    · rw [if_pos hd]
      rcases ih (fun s hs => hc s (by simp [hs])) x (distTo loc x) with
        ⟨hfold, hall⟩ | ⟨pre, n2, suf, heq, hfold, hlt, hpre, hall⟩
      · right
        refine ⟨[], x, xs, by simp, hfold, hd, by simp, ?_⟩
        intro s hs
        rcases List.mem_cons.mp hs with rfl | hs
        · exact le_refl _
        · exact hall s hs
      · right
        refine ⟨x :: pre, n2, suf, by simp [heq], hfold, lt_trans hlt hd, ?_, ?_⟩
        · intro s hs
          rcases List.mem_cons.mp hs with rfl | hs
          · exact hlt
          · exact hpre s hs
        · intro s hs
          rcases List.mem_cons.mp hs with rfl | hs
          · exact le_of_lt hlt
          · exact hall s (heq ▸ hs)
    · rw [if_neg hd]
      rcases ih (fun s hs => hc s (by simp [hs])) n m with
        ⟨hfold, hall⟩ | ⟨pre, n2, suf, heq, hfold, hlt, hpre, hall⟩
      · left
        refine ⟨hfold, ?_⟩
        intro s hs
        rcases List.mem_cons.mp hs with rfl | hs
        · exact le_of_not_lt hd
        · exact hall s hs
      · right
        refine ⟨x :: pre, n2, suf, by simp [heq], hfold, hlt, ?_, ?_⟩
        · intro s hs
          rcases List.mem_cons.mp hs with rfl | hs
          · exact lt_of_lt_of_le hlt (le_of_not_lt hd)
          · exact hpre s hs
        · intro s hs
          rcases List.mem_cons.mp hs with rfl | hs
          · exact le_of_lt (lt_of_lt_of_le hlt (le_of_not_lt hd))
          · exact hall s (heq ▸ hs)

lemma foldl_nearestStep_spec (loc : Point) (l : List Store)
    (hc : ∀ s ∈ l, s.lat ≠ 0 ∧ s.lng ≠ 0) (hne : l ≠ []) :
    ∃ pre n2 suf, l = pre ++ n2 :: suf ∧
      l.foldl (nearestStep loc) none = some (n2, distTo loc n2) ∧
      (∀ s ∈ pre, distTo loc n2 < distTo loc s) ∧
      (∀ s ∈ l, distTo loc n2 ≤ distTo loc s) := by
  obtain ⟨x, xs, rfl⟩ : ∃ x xs, l = x :: xs := by
    cases l with
    | nil => exact absurd rfl hne
    | cons a b => exact ⟨a, b, rfl⟩
  have hx := hc x (by simp)
  have hstep : nearestStep loc none x = some (x, distTo loc x) := by
    simp [nearestStep, hx]
  rw [List.foldl_cons, hstep]
  rcases foldl_nearestStep_acc loc xs (fun s hs => hc s (by simp [hs])) x
      (distTo loc x) with
    ⟨hfold, hall⟩ | ⟨pre, n2, suf, heq, hfold, hlt, hpre, hall⟩
  · refine ⟨[], x, xs, by simp, hfold, by simp, ?_⟩
    intro s hs
    rcases List.mem_cons.mp hs with rfl | hs
    · exact le_refl _
    · exact hall s hs
  · refine ⟨x :: pre, n2, suf, by simp [heq], hfold, ?_, ?_⟩
    · intro s hs
      rcases List.mem_cons.mp hs with rfl | hs
      · exact hlt
      · exact hpre s hs
    · intro s hs
      rcases List.mem_cons.mp hs with rfl | hs
      · exact le_of_lt hlt
      · exact hall s (heq ▸ hs)

lemma stopWatching_filterCity (st : AppState) :
    (stopWatchingPosition st).filterCity =
      (findLocationBasedOnStores st.allStores st.userLocation).1 := rfl

lemma stopWatching_filterArea (st : AppState) :
    (stopWatchingPosition st).filterArea =
      (findLocationBasedOnStores st.allStores st.userLocation).2 := rfl

/-- C4: the stop-tracking transition sets the region and subregion
filters to the city and area of the store minimizing the distance from
the last known reference point, ties broken by first occurrence in
normalizer output order (every earlier store is strictly farther), and
falls back to the constant pair when no reference point is known or the
store set is empty.  The coordinate hypothesis reflects that normalizer
output always has truthy coordinates, which the loop re-checks. -/
theorem stopWatching_sets_nearest_filters (st : AppState) :
    (∀ loc : Point, st.userLocation = some loc → st.allStores ≠ [] →
      (∀ s ∈ st.allStores, s.lat ≠ 0 ∧ s.lng ≠ 0) →
      ∃ pre n suf, st.allStores = pre ++ n :: suf ∧
        (stopWatchingPosition st).filterCity = n.city ∧
        (stopWatchingPosition st).filterArea = n.area ∧
        (∀ s ∈ st.allStores, distTo loc n ≤ distTo loc s) ∧
        (∀ s ∈ pre, distTo loc n < distTo loc s)) ∧
    ((st.userLocation = none ∨ st.allStores = []) →
      (stopWatchingPosition st).filterCity = DEFAULT_CITY ∧
      (stopWatchingPosition st).filterArea = DEFAULT_AREA) := by
  constructor
  · intro loc hloc hne hcs
    obtain ⟨pre, n, suf, heq, hfold, hpre, hall⟩ :=
      foldl_nearestStep_spec loc st.allStores hcs hne
    have hlen : ¬ st.allStores.length = 0 :=
      fun h0 => hne (List.length_eq_zero.mp h0)
    refine ⟨pre, n, suf, heq, ?_, ?_, hall, hpre⟩
    · rw [stopWatching_filterCity, hloc]
      simp only [findLocationBasedOnStores, if_neg hlen, hfold]
    · rw [stopWatching_filterArea, hloc]
      simp only [findLocationBasedOnStores, if_neg hlen, hfold]
  · intro h
    rcases h with h | h
    · rw [stopWatching_filterCity, stopWatching_filterArea, h]
      exact ⟨rfl, rfl⟩
    · cases hl : st.userLocation with
      | none =>
        rw [stopWatching_filterCity, stopWatching_filterArea, hl]
        exact ⟨rfl, rfl⟩
      | some loc =>
        rw [stopWatching_filterCity, stopWatching_filterArea, hl]
        simp [findLocationBasedOnStores, h]

/-- Three synthetic stores for the C4 witness. -/
def c4StoreA : Store :=
  { id := "a", name := "A", city := "臺北市", area := "大安區",
    address := "", lat := 25, lng := 121, distance := none }

/-- Second synthetic store, the one the reference point sits on. -/
def c4StoreB : Store :=
  { id := "b", name := "B", city := "新北市", area := "板橋區",
    address := "", lat := 24, lng := 120, distance := none }

/-- Third synthetic store. -/
def c4StoreC : Store :=
  { id := "c", name := "C", city := "高雄市", area := "左營區",
    address := "", lat := 22, lng := 120, distance := none }

/-- A Live-mode state whose reference point coincides with the second
store. -/
def c4State : AppState :=
  { allStores := [c4StoreA, c4StoreB, c4StoreC], filteredStores := [],
    filterCity := "", filterArea := "", selectedStore := none,
    userLocation := some { lat := 24, lng := 120 }, userHeading := none,
    isWatching := true, proximityRadius := 5,
    followMode := FollowMode.center, isRecenterForced := false, error := "" }

/-- Witness for C4 at a concrete Live-mode state with three stores and a
reference point closest to the second. -/
theorem stopWatching_sets_nearest_filters_witness :
    c4State.userLocation = some { lat := 24, lng := 120 } ∧
    c4State.allStores ≠ [] ∧
    (∀ s ∈ c4State.allStores, s.lat ≠ 0 ∧ s.lng ≠ 0) ∧
    (∃ pre n suf, c4State.allStores = pre ++ n :: suf ∧
      (stopWatchingPosition c4State).filterCity = n.city ∧
      (stopWatchingPosition c4State).filterArea = n.area ∧
      (∀ s ∈ c4State.allStores,
        distTo { lat := 24, lng := 120 } n ≤ distTo { lat := 24, lng := 120 } s) ∧
      (∀ s ∈ pre,
        distTo { lat := 24, lng := 120 } n < distTo { lat := 24, lng := 120 } s)) :=
  ⟨rfl, by simp [c4State], by decide,
    (stopWatching_sets_nearest_filters c4State).1 { lat := 24, lng := 120 } rfl
      (by simp [c4State]) (by decide)⟩

/-! ### C7: static-mode result sets carry no distance -/

lemma staticResults_distance_none (st : AppState) :
    (staticResults st).Forall (fun s => s.distance = none) := by
  rw [List.forall_iff_forall_mem]
  intro s hs
  simp only [staticResults, List.mem_map] at hs
  obtain ⟨t, _, rfl⟩ := hs
  rfl

/-- C7: in Static mode (watching off), whatever the filters and store
set, every record of the derived result set has no distance attribute. -/
theorem static_mode_no_distance (st : AppState) (h : st.isWatching = false) :
    (deriveResults st).Forall (fun s => s.distance = none) := by
  unfold deriveResults
  cases hl : st.userLocation with
  | none => exact staticResults_distance_none st
  | some loc =>
    rw [h]
    simp only [Bool.false_eq_true, if_false]
    exact staticResults_distance_none st

/-- A static-mode state whose store set has records in two cities, for
the C7 witness. -/
def c7State : AppState :=
  { allStores := [c4StoreA, c4StoreB], filteredStores := [],
    filterCity := "臺北市", filterArea := "", selectedStore := none,
    userLocation := some { lat := 25, lng := 121 }, userHeading := none,
    isWatching := false, proximityRadius := 5,
    followMode := FollowMode.free, isRecenterForced := false, error := "" }

/-- Witness for C7 at a concrete static state. -/
theorem static_mode_no_distance_witness :
    c7State.isWatching = false ∧
    (deriveResults c7State).Forall (fun s => s.distance = none) :=
  ⟨rfl, static_mode_no_distance c7State rfl⟩

/-! ### C2: live-mode result sets are within radius, sorted, stable -/

lemma liveKept_mem (loc : Point) (radius : ℚ) (stores : List Store) :
    ∀ s ∈ liveKept loc radius stores,
      s.distance = some (distTo loc s) ∧ distTo loc s ≤ (radius : ℝ) := by
  intro s hs
  simp only [liveKept, List.mem_filter, List.mem_map] at hs
  obtain ⟨⟨t, _, rfl⟩, hrad⟩ := hs
  have hd : (attachDistance loc t).distance = some (distTo loc t) := rfl
  have hsame : distTo loc (attachDistance loc t) = distTo loc t := rfl
  rw [decide_eq_true_eq, hd] at hrad
  simp only [Option.getD_some] at hrad
  exact ⟨by rw [hd, hsame], by rw [hsame]; exact hrad⟩

lemma insertionSort_filter_tie (p : Store → Bool)
    (hp : ∀ a b : Store, p a = true → p b = true →
      a.distance.getD 0 = b.distance.getD 0) :
    ∀ l : List Store,
      (List.insertionSort distLE l).filter p = l.filter p := by
  intro l
  induction l with
  | nil => rfl
  | cons x xs ih =>
    rw [List.insertionSort, List.orderedInsert_eq_take_drop, List.filter_append]
    by_cases hpx : p x = true
    · have htw : ((List.insertionSort distLE xs).takeWhile
          (fun b => decide ¬ distLE x b)).filter p = [] := by
        rw [List.filter_eq_nil_iff]
        intro a ha hpa
        have hlt := List.mem_takeWhile_imp ha
        rw [decide_eq_true_eq] at hlt
        exact hlt (le_of_eq (hp x a hpx hpa))
      have hs : (List.insertionSort distLE xs).filter p =
          ((List.insertionSort distLE xs).dropWhile
            (fun b => decide ¬ distLE x b)).filter p := by
        conv_lhs => rw [← List.takeWhile_append_dropWhile
          (fun b => decide ¬ distLE x b) (List.insertionSort distLE xs)]
        rw [List.filter_append, htw, List.nil_append]
      rw [htw, List.nil_append, List.filter_cons_of_pos hpx,
        List.filter_cons_of_pos hpx, ← hs, ih]
    · have hpx2 : p x = false := Bool.eq_false_iff.mpr hpx
      have hs : (List.insertionSort distLE xs).filter p =
          ((List.insertionSort distLE xs).takeWhile
            (fun b => decide ¬ distLE x b)).filter p ++
          ((List.insertionSort distLE xs).dropWhile
            (fun b => decide ¬ distLE x b)).filter p := by
        conv_lhs => rw [← List.takeWhile_append_dropWhile
          (fun b => decide ¬ distLE x b) (List.insertionSort distLE xs)]
        rw [List.filter_append]
      rw [List.filter_cons_of_neg (by simp [hpx2]),
        List.filter_cons_of_neg (by simp [hpx2]), ← hs, ih]

/-- C2: in Live mode, every record of the derived result set carries the
distance computed by getDistance from the reference point to the record,
that distance is within the proximity radius, the sequence is
non-decreasing in distance, and ties are broken by normalizer output
order: filtering the result by any tie class of equal distances yields
exactly the kept records of that class in their pre-sort order. -/
theorem liveResults_within_radius_sorted (st : AppState) (loc : Point)
    (hloc : st.userLocation = some loc) (hw : st.isWatching = true) :
    (deriveResults st).Forall (fun s =>
      s.distance = some (distTo loc s) ∧ distTo loc s ≤ (st.proximityRadius : ℝ)) ∧
    (deriveResults st).Pairwise distLE ∧
    (∀ p : Store → Bool,
      (∀ a b : Store, p a = true → p b = true →
        a.distance.getD 0 = b.distance.getD 0) →
      (deriveResults st).filter p =
        (liveKept loc st.proximityRadius st.allStores).filter p) := by
  have hderive : deriveResults st =
      liveResults loc st.proximityRadius st.allStores := by
    unfold deriveResults
    rw [hloc, hw]
    simp
  refine ⟨?_, ?_, ?_⟩
  · rw [hderive, List.forall_iff_forall_mem]
    intro s hs
    rw [liveResults, List.mem_insertionSort] at hs
    exact liveKept_mem loc st.proximityRadius st.allStores s hs
  · rw [hderive, liveResults]
    exact List.sorted_insertionSort distLE
      (liveKept loc st.proximityRadius st.allStores)
  · intro p hp
    rw [hderive, liveResults]
    exact insertionSort_filter_tie p hp _

/-- A Live-mode state for the C2 witness. -/
def c2State : AppState :=
  { allStores := [c4StoreA, c4StoreB, c4StoreC], filteredStores := [],
    filterCity := "", filterArea := "", selectedStore := none,
    userLocation := some { lat := 24, lng := 120 }, userHeading := none,
    isWatching := true, proximityRadius := 500,
    followMode := FollowMode.center, isRecenterForced := false, error := "" }

/-- Witness for C2 at a concrete Live-mode state. -/
theorem liveResults_within_radius_sorted_witness :
    c2State.userLocation = some { lat := 24, lng := 120 } ∧
    c2State.isWatching = true ∧
    ((deriveResults c2State).Forall (fun s =>
      s.distance = some (distTo { lat := 24, lng := 120 } s) ∧
      distTo { lat := 24, lng := 120 } s ≤ ((500 : ℚ) : ℝ)) ∧
    (deriveResults c2State).Pairwise distLE ∧
    (∀ p : Store → Bool,
      (∀ a b : Store, p a = true → p b = true →
        a.distance.getD 0 = b.distance.getD 0) →
      (deriveResults c2State).filter p =
        (liveKept { lat := 24, lng := 120 } 500 c2State.allStores).filter p)) :=
  ⟨rfl, rfl, liveResults_within_radius_sorted c2State { lat := 24, lng := 120 } rfl rfl⟩

/-! ### C1: camera-target derivation priority -/

/-- A derived camera target: center coordinates and zoom level. -/
structure Target where
  lat : ℚ
  lng : ℚ
  zoom : ℕ
deriving DecidableEq

/-- The static centroid target (main.jsx lines 1678-1682): arithmetic
mean of the filtered coordinates at the static zoom preset. -/
def centroidTarget (l : List Store) : Target :=
  { lat := (l.map (fun s => s.lat)).sum / (l.length : ℚ)
    lng := (l.map (fun s => s.lng)).sum / (l.length : ℚ)
    zoom := DEFAULT_STATIC_ZOOM }

/-- Shallow embedding of the mapCenter memo of client variant 3
(main.jsx lines 1675-1685), rule by rule in source order: first a
center-locked or compass-locked known reference point, then the selected
store, then the non-empty filtered-set centroid, then a known reference
point, then the fixed default. -/
def mapCenter (st : AppState) : Target :=
  if h : (st.followMode = FollowMode.center ∨ st.followMode = FollowMode.compass) ∧
      st.userLocation.isSome then
    { lat := (st.userLocation.get h.2).lat
      lng := (st.userLocation.get h.2).lng
      zoom := if st.followMode = FollowMode.compass then MAX_ZOOM else 17 }
  else
    match st.selectedStore with
    | some s => { lat := s.lat, lng := s.lng, zoom := MAX_ZOOM }
    | none =>
      if st.filteredStores.length > 0 then centroidTarget st.filteredStores
      else
        match st.userLocation with
        | some u => { lat := u.lat, lng := u.lng, zoom := 17 }
        | none =>
          { lat := DEFAULT_STATIC_LAT, lng := DEFAULT_STATIC_LNG,
            zoom := DEFAULT_STATIC_ZOOM }

/-- C1 (amended): the camera-target rules are evaluated in the order the
code has them: a camera-locked (center or compass) known reference point
wins over everything, then the selected store, then the non-empty
result-set centroid, then an unlocked known reference point, then the
fixed default.  In particular, with no selection, a non-empty result set
and a known but unlocked reference point, the camera centers on the
centroid, not on the reference point. -/
theorem mapCenter_priority_order (st : AppState) :
    (∀ u : Point, st.userLocation = some u →
      (st.followMode = FollowMode.center →
        mapCenter st = { lat := u.lat, lng := u.lng, zoom := 17 }) ∧
      (st.followMode = FollowMode.compass →
        mapCenter st = { lat := u.lat, lng := u.lng, zoom := MAX_ZOOM })) ∧
    ((st.followMode = FollowMode.free ∨ st.userLocation = none) →
      ∀ s : Store, st.selectedStore = some s →
        mapCenter st = { lat := s.lat, lng := s.lng, zoom := MAX_ZOOM }) ∧
    ((st.followMode = FollowMode.free ∨ st.userLocation = none) →
      st.selectedStore = none → st.filteredStores ≠ [] →
      mapCenter st = centroidTarget st.filteredStores) ∧
    (∀ u : Point, st.followMode = FollowMode.free → st.selectedStore = none →
      st.filteredStores = [] → st.userLocation = some u →
      mapCenter st = { lat := u.lat, lng := u.lng, zoom := 17 }) ∧
    (st.userLocation = none → st.selectedStore = none →
      st.filteredStores = [] →
      mapCenter st =
        { lat := DEFAULT_STATIC_LAT, lng := DEFAULT_STATIC_LNG,
          zoom := DEFAULT_STATIC_ZOOM }) := by
  refine ⟨?_, ?_, ?_, ?_, ?_⟩
  · intro u hu
    constructor
    · intro hm
      simp [mapCenter, hu, hm]
    · intro hm
      simp [mapCenter, hu, hm]
  · intro hfree s hsel
    rcases hfree with hm | hu
    · simp [mapCenter, hm, hsel]
    · simp [mapCenter, hu, hsel]
  · intro hfree hsel hne
    have hlen : st.filteredStores.length > 0 := List.length_pos.mpr hne
    rcases hfree with hm | hu
    · simp [mapCenter, hm, hsel, hlen]
    · simp [mapCenter, hu, hsel, hlen]
  · intro u hm hsel hemp hu
    simp [mapCenter, hm, hsel, hemp, hu]
  · intro hu hsel hemp
    simp [mapCenter, hu, hsel, hemp, DEFAULT_STATIC_ZOOM]

/-- A store at coordinates (1, 1) for the C1 counterexample. -/
def c1Store : Store :=
  { id := "sel", name := "Selected", city := "臺北市", area := "信義區",
    address := "", lat := 1, lng := 1, distance := none }

/-- A state with both a selected store and a center-locked known
reference point. -/
def c1State : AppState :=
  { allStores := [c1Store], filteredStores := [],
    filterCity := "", filterArea := "", selectedStore := some c1Store,
    userLocation := some { lat := 2, lng := 2 }, userHeading := none,
    isWatching := false, proximityRadius := 5,
    followMode := FollowMode.center, isRecenterForced := false, error := "" }

/-- Counterexample for C1 as stated: with a selected store present and a
center-locked known reference point, the code centers on the reference
point, not on the selected store, so the selected store is not the first
rule. -/
theorem mapCenter_locked_over_selection_cex :
    c1State.selectedStore = some c1Store ∧
    mapCenter c1State = { lat := 2, lng := 2, zoom := 17 } ∧
    mapCenter c1State ≠ { lat := c1Store.lat, lng := c1Store.lng, zoom := MAX_ZOOM } := by
  refine ⟨rfl, by decide, by decide⟩

/-- A state with no selection, a non-empty static result set, and a
known but unlocked reference point, for the C1 witness. -/
def c1FreeState : AppState :=
  { allStores := [c4StoreA, c4StoreB], filteredStores := [c4StoreA, c4StoreB],
    filterCity := "", filterArea := "", selectedStore := none,
    userLocation := some { lat := 2, lng := 2 }, userHeading := none,
    isWatching := false, proximityRadius := 5,
    followMode := FollowMode.free, isRecenterForced := false, error := "" }

/-- Witness for C1: on the concrete unlocked state the camera centers on
the result-set centroid. -/
theorem mapCenter_priority_order_witness :
    (c1FreeState.followMode = FollowMode.free ∨ c1FreeState.userLocation = none) ∧
    c1FreeState.selectedStore = none ∧
    c1FreeState.filteredStores ≠ [] ∧
    mapCenter c1FreeState = centroidTarget c1FreeState.filteredStores :=
  ⟨Or.inl rfl, rfl, by simp [c1FreeState],
    (mapCenter_priority_order c1FreeState).2.2.1 (Or.inl rfl) rfl
      (by simp [c1FreeState])⟩

/-! ### C10: a device heading of zero -/

/-- The heading update of the watchPosition success handler of client
variant 3 (main.jsx line 1588): the heading is stored only when
pos.coords.heading is truthy. -/
def posHeadingUpdate (coordsHeading : Option ℚ) (prev : Option ℚ) : Option ℚ :=
  if truthyQ coordsHeading then coordsHeading else prev

/-- Shallow embedding of handleOrientation (main.jsx lines 1507-1511):
start from webkitCompassHeading; when that is falsy and alpha is truthy,
derive the heading from alpha; store the result only when it is neither
null nor undefined. -/
def handleOrientation (webkit alpha prev : Option ℚ) : Option ℚ :=
  let heading : Option ℚ :=
    if ¬ truthyQ webkit = true ∧ truthyQ alpha = true
    then some (360 - alpha.getD 0) else webkit
  match heading with
  | some h => some h
  | none => prev

/-- The map-rotation memo of client variant 3 (main.jsx line 1453): minus
the heading in compass mode when the heading is truthy, otherwise 0. -/
def mapRotation (followMode : FollowMode) (userHeading : Option ℚ) : ℚ :=
  if followMode = FollowMode.compass ∧ truthyQ userHeading = true
  then -(userHeading.getD 0) else 0

/-- The scale compensation (main.jsx line 1454): 1.5 when the rotation is
non-zero, else 1. -/
def mapScale (followMode : FollowMode) (userHeading : Option ℚ) : ℚ :=
  if mapRotation followMode userHeading ≠ 0 then 1.5 else 1

/-- Counterexample for C10 as stated: a compass event with
webkitCompassHeading 0 and alpha 0 stores the zero heading itself rather
than falling through to the alpha-derived value 360 - 0 = 360. -/
theorem handleOrientation_zero_alpha_cex :
    handleOrientation (some 0) (some 0) none = some 0 ∧
    handleOrientation (some 0) (some 0) none ≠ some (360 - (0 : ℚ)) := by
  refine ⟨rfl, by norm_num [handleOrientation, truthyQ]⟩

/-- C10 (amended): a position fix with heading 0 does not update the
stored heading; a compass event with webkitCompassHeading 0 falls through
to the alpha-derived value 360 - alpha exactly when alpha is truthy, and
otherwise stores the zero heading itself; in compass-follow mode a stored
heading of 0 yields rotation 0 and scale 1, while any non-zero heading h
yields rotation -h and scale 1.5. -/
theorem heading_zero_behavior :
    (∀ prev : Option ℚ, posHeadingUpdate (some 0) prev = prev) ∧
    (∀ (a : ℚ) (prev : Option ℚ), a ≠ 0 →
      handleOrientation (some 0) (some a) prev = some (360 - a)) ∧
    (∀ prev : Option ℚ, handleOrientation (some 0) (some 0) prev = some 0 ∧
      handleOrientation (some 0) none prev = some 0) ∧
    (mapRotation FollowMode.compass (some 0) = 0 ∧
      mapScale FollowMode.compass (some 0) = 1) ∧
    (∀ h : ℚ, h ≠ 0 →
      mapRotation FollowMode.compass (some h) = -h ∧
      mapScale FollowMode.compass (some h) = 1.5) := by
  refine ⟨?_, ?_, ?_, ?_, ?_⟩
  · intro prev
    simp [posHeadingUpdate, truthyQ]
  · intro a prev ha
    simp [handleOrientation, truthyQ, ha]
  · intro prev
    constructor <;> simp [handleOrientation, truthyQ]
  · constructor <;> simp [mapRotation, mapScale, truthyQ]
  · intro h hh
    have hrot : mapRotation FollowMode.compass (some h) = -h := by
      simp [mapRotation, truthyQ, hh]
    refine ⟨hrot, ?_⟩
    rw [mapScale, hrot]
    simp [neg_eq_zero, hh]

/-- Witness for C10: the amended behavior at concrete headings 0 and 90. -/
theorem heading_zero_behavior_witness :
    (90 : ℚ) ≠ 0 ∧
    handleOrientation (some 0) (some 90) none = some (360 - 90) ∧
    mapRotation FollowMode.compass (some 90) = -90 ∧
    mapScale FollowMode.compass (some 90) = 1.5 :=
  ⟨by decide, heading_zero_behavior.2.1 90 none (by decide),
    (heading_zero_behavior.2.2.2.2 90 (by decide)).1,
    (heading_zero_behavior.2.2.2.2 90 (by decide)).2⟩

/-! ### C9: the Taipei fixture distance -/

lemma atan2_pos_x (y x : ℝ) (hx : 0 < x) : atan2 y x = Real.arctan (y / x) := by
  unfold atan2
  rw [if_pos hx]

lemma haversine_interval (sx sy c1 c2 : ℝ)
    (hsxL : (0.00012915 : ℝ) ≤ sx) (hsxU : sx ≤ 0.00012916)
    (hsyL : (0.00029233 : ℝ) ≤ sy) (hsyU : sy ≤ 0.00029235)
    (hc1L : (0.90265 : ℝ) ≤ c1) (hc1U : c1 ≤ 0.90647)
    (hc2L : (0.90253 : ℝ) ≤ c2) (hc2U : c2 ≤ 0.90636) :
    (3.73 : ℝ) ≤ 6371 * 2 * atan2 (Real.sqrt (sx * sx + c1 * c2 * sy * sy))
        (Real.sqrt (1 - (sx * sx + c1 * c2 * sy * sy))) ∧
      6371 * 2 * atan2 (Real.sqrt (sx * sx + c1 * c2 * sy * sy))
        (Real.sqrt (1 - (sx * sx + c1 * c2 * sy * sy))) ≤ 3.7592 := by
  set A : ℝ := sx * sx + c1 * c2 * sy * sy with hAdef
  have hsx0 : (0 : ℝ) ≤ sx := by linarith
  have hsy0 : (0 : ℝ) ≤ sy := by linarith
  have hc20 : (0 : ℝ) ≤ c2 := by linarith
  have hccL : (0.8146 : ℝ) ≤ c1 * c2 := by
    calc (0.8146 : ℝ) ≤ 0.90265 * 0.90253 := by norm_num
      _ ≤ c1 * c2 := mul_le_mul hc1L hc2L (by norm_num) (by linarith)
  have hccU : c1 * c2 ≤ (0.8216 : ℝ) := by
    calc c1 * c2 ≤ 0.90647 * 0.90636 := mul_le_mul hc1U hc2U hc20 (by norm_num)
      _ ≤ 0.8216 := by norm_num
  have hsx2L : (0.0000000166 : ℝ) ≤ sx * sx := by
    calc (0.0000000166 : ℝ) ≤ 0.00012915 * 0.00012915 := by norm_num
      _ ≤ sx * sx := mul_le_mul hsxL hsxL (by norm_num) hsx0
  have hsx2U : sx * sx ≤ (0.0000000167 : ℝ) := by
    calc sx * sx ≤ 0.00012916 * 0.00012916 := mul_le_mul hsxU hsxU hsx0 (by norm_num)
      _ ≤ 0.0000000167 := by norm_num
  have hsy2L : (0.00000008545 : ℝ) ≤ sy * sy := by
    calc (0.00000008545 : ℝ) ≤ 0.00029233 * 0.00029233 := by norm_num
      _ ≤ sy * sy := mul_le_mul hsyL hsyL (by norm_num) hsy0
  have hsy2U : sy * sy ≤ (0.0000000855 : ℝ) := by
    calc sy * sy ≤ 0.00029235 * 0.00029235 := mul_le_mul hsyU hsyU hsy0 (by norm_num)
      _ ≤ 0.0000000855 := by norm_num
  have hccssL : (0.8146 : ℝ) * 0.00000008545 ≤ (c1 * c2) * (sy * sy) :=
    mul_le_mul hccL hsy2L (by norm_num) (by linarith)
  have hccssU : (c1 * c2) * (sy * sy) ≤ (0.8216 : ℝ) * 0.0000000855 :=
    mul_le_mul hccU hsy2U (by positivity) (by norm_num)
  have hAre : A = sx * sx + (c1 * c2) * (sy * sy) := by rw [hAdef]; ring
  have hAL : (0.0000000861 : ℝ) ≤ A := by
    have e : (0.0000000861 : ℝ) ≤ 0.0000000166 + 0.8146 * 0.00000008545 := by norm_num
    rw [hAre]
    linarith
  have hAU : A ≤ (0.000000087 : ℝ) := by
    have e : (0.0000000167 : ℝ) + 0.8216 * 0.0000000855 ≤ 0.000000087 := by norm_num
    rw [hAre]
    linarith
  have hsqAL : (0.000293 : ℝ) ≤ Real.sqrt A := by
    have e : ((0.000293 : ℝ)) ^ 2 ≤ 0.0000000861 := by norm_num
    have h : (0.000293 : ℝ) ^ 2 ≤ A := by linarith
    calc (0.000293 : ℝ) = Real.sqrt ((0.000293 : ℝ) ^ 2) :=
        (Real.sqrt_sq (by norm_num)).symm
      _ ≤ Real.sqrt A := Real.sqrt_le_sqrt h
  have hsqAU : Real.sqrt A ≤ (0.000295 : ℝ) := by
    have e : (0.000000087 : ℝ) ≤ ((0.000295 : ℝ)) ^ 2 := by norm_num
    have h : A ≤ (0.000295 : ℝ) ^ 2 := by linarith
    calc Real.sqrt A ≤ Real.sqrt ((0.000295 : ℝ) ^ 2) := Real.sqrt_le_sqrt h
      _ = 0.000295 := Real.sqrt_sq (by norm_num)
  have hs1AL : (0.999999 : ℝ) ≤ Real.sqrt (1 - A) := by
    have e : ((0.999999 : ℝ)) ^ 2 ≤ 1 - 0.000000087 := by norm_num
    have h : (0.999999 : ℝ) ^ 2 ≤ 1 - A := by linarith
    calc (0.999999 : ℝ) = Real.sqrt ((0.999999 : ℝ) ^ 2) :=
        (Real.sqrt_sq (by norm_num)).symm
      _ ≤ Real.sqrt (1 - A) := Real.sqrt_le_sqrt h
  have hs1AU : Real.sqrt (1 - A) ≤ 1 := by
    calc Real.sqrt (1 - A) ≤ Real.sqrt 1 := Real.sqrt_le_sqrt (by linarith)
      _ = 1 := Real.sqrt_one
  have hs1A0 : (0 : ℝ) < Real.sqrt (1 - A) := by linarith
  rw [atan2_pos_x _ _ hs1A0]
  set t : ℝ := Real.sqrt A / Real.sqrt (1 - A) with htdef
  have htL : (0.000293 : ℝ) ≤ t := by
    rw [htdef, le_div_iff₀ hs1A0]
    calc (0.000293 : ℝ) * Real.sqrt (1 - A) ≤ 0.000293 * 1 :=
        mul_le_mul_of_nonneg_left hs1AU (by norm_num)
      _ = 0.000293 := by norm_num
      _ ≤ Real.sqrt A := hsqAL
  have htU : t ≤ (0.0002950003 : ℝ) := by
    rw [htdef]
    calc Real.sqrt A / Real.sqrt (1 - A) ≤ 0.000295 / 0.999999 :=
        div_le_div₀ (by norm_num) hsqAU (by norm_num) hs1AL
      _ ≤ 0.0002950003 := by norm_num
  have ht0 : (0 : ℝ) < t := by linarith
  have harct0 : (0 : ℝ) < Real.arctan t := by
    have h := arctan_strictMono ht0
    simpa [Real.arctan_zero] using h
  have harctU : Real.arctan t < t := by
    have h2 := Real.lt_tan harct0 (Real.arctan_lt_pi_div_two t)
    rwa [Real.tan_arctan] at h2
  have ht2U : t ^ 2 ≤ ((0.0002950003 : ℝ)) ^ 2 := pow_le_pow_left₀ ht0.le htU 2
  have hsq1t : Real.sqrt (1 + t ^ 2) ≤ (1.0000001 : ℝ) := by
    have e : 1 + ((0.0002950003 : ℝ)) ^ 2 ≤ ((1.0000001 : ℝ)) ^ 2 := by norm_num
    have h : 1 + t ^ 2 ≤ (1.0000001 : ℝ) ^ 2 := by linarith
    calc Real.sqrt (1 + t ^ 2) ≤ Real.sqrt ((1.0000001 : ℝ) ^ 2) :=
        Real.sqrt_le_sqrt h
      _ = 1.0000001 := Real.sqrt_sq (by norm_num)
  have hsq1t0 : (0 : ℝ) < Real.sqrt (1 + t ^ 2) :=
    Real.sqrt_pos.mpr (by positivity)
  have harctL : (0.0002929 : ℝ) ≤ Real.arctan t := by
    have h1 : Real.sin (Real.arctan t) ≤ Real.arctan t :=
      Real.sin_le harct0.le
    rw [Real.sin_arctan] at h1
    have h2 : (0.0002929 : ℝ) ≤ t / Real.sqrt (1 + t ^ 2) := by
      rw [le_div_iff₀ hsq1t0]
      calc (0.0002929 : ℝ) * Real.sqrt (1 + t ^ 2) ≤ 0.0002929 * 1.0000001 :=
          mul_le_mul_of_nonneg_left hsq1t (by norm_num)
        _ ≤ 0.000293 := by norm_num
        _ ≤ t := htL
    linarith
  constructor
  · linarith
  · linarith

set_option maxHeartbeats 1600000 in
lemma taipei_dist_bounds :
    (3.73 : ℝ) ≤ getDistance 25.0330 121.5654 25.0478 121.5319 ∧
      getDistance 25.0330 121.5654 25.0478 121.5319 ≤ 3.7592 := by
  have hpiL : (3.141592 : ℝ) < Real.pi := Real.pi_gt_d6
  have hpiU : Real.pi < 3.141593 := Real.pi_lt_d6
  rw [getDistance_eq]
  rw [show Real.sin ((121.5319 - 121.5654) * (Real.pi / 180) / 2) =
      -Real.sin ((121.5654 - 121.5319) * (Real.pi / 180) / 2) by
    rw [show ((121.5319 : ℝ) - 121.5654) * (Real.pi / 180) / 2 =
        -(((121.5654 : ℝ) - 121.5319) * (Real.pi / 180) / 2) by ring, Real.sin_neg]]
  rw [show Real.cos (25.0330 * (Real.pi / 180)) * Real.cos (25.0478 * (Real.pi / 180)) *
      -Real.sin ((121.5654 - 121.5319) * (Real.pi / 180) / 2) *
      -Real.sin ((121.5654 - 121.5319) * (Real.pi / 180) / 2) =
      Real.cos (25.0330 * (Real.pi / 180)) * Real.cos (25.0478 * (Real.pi / 180)) *
      Real.sin ((121.5654 - 121.5319) * (Real.pi / 180) / 2) *
      Real.sin ((121.5654 - 121.5319) * (Real.pi / 180) / 2) by ring]
  have hxL : (0.000129154 : ℝ) ≤ (25.0478 - 25.0330) * (Real.pi / 180) / 2 := by
    linarith
  have hxU : (25.0478 - 25.0330) * (Real.pi / 180) / 2 ≤ (0.00012916 : ℝ) := by
    linarith
  have hxpos : (0 : ℝ) < (25.0478 - 25.0330) * (Real.pi / 180) / 2 := by linarith
  have hsinxU : Real.sin ((25.0478 - 25.0330) * (Real.pi / 180) / 2) ≤ 0.00012916 :=
    le_trans (Real.sin_lt hxpos).le hxU
  have hsinxL : (0.00012915 : ℝ) ≤
      Real.sin ((25.0478 - 25.0330) * (Real.pi / 180) / 2) := by
    have hs := Real.sin_gt_sub_cube hxpos (by linarith)
    have hcube : ((25.0478 - 25.0330) * (Real.pi / 180) / 2) ^ 3 ≤
        ((0.00012916 : ℝ)) ^ 3 := pow_le_pow_left₀ hxpos.le hxU 3
    have hc3 : ((0.00012916 : ℝ)) ^ 3 ≤ 0.0000000000024 := by norm_num
    linarith
  have hyL : (0.00029234 : ℝ) ≤ (121.5654 - 121.5319) * (Real.pi / 180) / 2 := by
    linarith
  have hyU : (121.5654 - 121.5319) * (Real.pi / 180) / 2 ≤ (0.00029235 : ℝ) := by
    linarith
  have hypos : (0 : ℝ) < (121.5654 - 121.5319) * (Real.pi / 180) / 2 := by linarith
  have hsinyU : Real.sin ((121.5654 - 121.5319) * (Real.pi / 180) / 2) ≤ 0.00029235 :=
    le_trans (Real.sin_lt hypos).le hyU
  have hsinyL : (0.00029233 : ℝ) ≤
      Real.sin ((121.5654 - 121.5319) * (Real.pi / 180) / 2) := by
    have hs := Real.sin_gt_sub_cube hypos (by linarith)
    have hcube : ((121.5654 - 121.5319) * (Real.pi / 180) / 2) ^ 3 ≤
        ((0.00029235 : ℝ)) ^ 3 := pow_le_pow_left₀ hypos.le hyU 3
    have hc3 : ((0.00029235 : ℝ)) ^ 3 ≤ 0.000000000025 := by norm_num
    linarith
  have hl1L : (0.4369 : ℝ) ≤ 25.0330 * (Real.pi / 180) := by linarith
  have hl1U : 25.0330 * (Real.pi / 180) ≤ (0.43691 : ℝ) := by linarith
  have hl1pos : (0 : ℝ) < 25.0330 * (Real.pi / 180) := by linarith
  have hcos1 : (0.90265 : ℝ) ≤ Real.cos (25.0330 * (Real.pi / 180)) ∧
      Real.cos (25.0330 * (Real.pi / 180)) ≤ 0.90647 := by
    have habs : |25.0330 * (Real.pi / 180)| ≤ 1 := by
      rw [abs_of_pos hl1pos]; linarith
    have hcb := Real.cos_bound habs
    rw [abs_of_pos hl1pos] at hcb
    have hcb2 := abs_le.mp hcb
    have hsqU : (25.0330 * (Real.pi / 180)) ^ 2 ≤ ((0.43691 : ℝ)) ^ 2 :=
      pow_le_pow_left₀ hl1pos.le hl1U 2
    have hsqL : ((0.4369 : ℝ)) ^ 2 ≤ (25.0330 * (Real.pi / 180)) ^ 2 :=
      pow_le_pow_left₀ (by norm_num) hl1L 2
    have h4U : (25.0330 * (Real.pi / 180)) ^ 4 ≤ ((0.43691 : ℝ)) ^ 4 :=
      pow_le_pow_left₀ hl1pos.le hl1U 4
    have e1 : ((0.43691 : ℝ)) ^ 2 ≤ 0.1908904 := by norm_num
    have e2 : ((0.43691 : ℝ)) ^ 4 * (5 / 96) ≤ 0.0018985 := by norm_num
    have e3 : (0.1908816 : ℝ) ≤ ((0.4369 : ℝ)) ^ 2 := by norm_num
    have e4 : (25.0330 * (Real.pi / 180)) ^ 4 * (5 / 96) ≤ 0.0018985 := by linarith
    constructor
    · linarith [hcb2.1]
    · linarith [hcb2.2]
  have hl2L : (0.43716 : ℝ) ≤ 25.0478 * (Real.pi / 180) := by linarith
  have hl2U : 25.0478 * (Real.pi / 180) ≤ (0.43717 : ℝ) := by linarith
  have hl2pos : (0 : ℝ) < 25.0478 * (Real.pi / 180) := by linarith
  have hcos2 : (0.90253 : ℝ) ≤ Real.cos (25.0478 * (Real.pi / 180)) ∧
      Real.cos (25.0478 * (Real.pi / 180)) ≤ 0.90636 := by
    have habs : |25.0478 * (Real.pi / 180)| ≤ 1 := by
      rw [abs_of_pos hl2pos]; linarith
    have hcb := Real.cos_bound habs
    rw [abs_of_pos hl2pos] at hcb
    have hcb2 := abs_le.mp hcb
    have hsqU : (25.0478 * (Real.pi / 180)) ^ 2 ≤ ((0.43717 : ℝ)) ^ 2 :=
      pow_le_pow_left₀ hl2pos.le hl2U 2
    have hsqL : ((0.43716 : ℝ)) ^ 2 ≤ (25.0478 * (Real.pi / 180)) ^ 2 :=
      pow_le_pow_left₀ (by norm_num) hl2L 2
    have h4U : (25.0478 * (Real.pi / 180)) ^ 4 ≤ ((0.43717 : ℝ)) ^ 4 :=
      pow_le_pow_left₀ hl2pos.le hl2U 4
    have e1 : ((0.43717 : ℝ)) ^ 2 ≤ 0.1911177 := by norm_num
    have e2 : ((0.43717 : ℝ)) ^ 4 * (5 / 96) ≤ 0.0019024 := by norm_num
    have e3 : (0.1911088 : ℝ) ≤ ((0.43716 : ℝ)) ^ 2 := by norm_num
    have e4 : (25.0478 * (Real.pi / 180)) ^ 4 * (5 / 96) ≤ 0.0019024 := by linarith
    constructor
    · linarith [hcb2.1]
    · linarith [hcb2.2]
  exact haversine_interval _ _ _ _ hsinxL hsinxU hsinyL hsinyU
    hcos1.1 hcos1.2 hcos2.1 hcos2.2

/-- Counterexample for C9 as stated: the haversine distance between the
Taipei 101 and Taipei Main Station fixture coordinates is below 4.3 km,
so it is not within 0.2 km of 4.5 km. -/
theorem getDistance_taipei_fixture_cex :
    ¬ |getDistance 25.0330 121.5654 25.0478 121.5319 - 4.5| ≤ 0.2 := by
  intro h
  have h2 := (abs_le.mp h).1
  have h3 := taipei_dist_bounds.2
  linarith

/-- C9 (amended): for the fixture pair (25.0330, 121.5654) and
(25.0478, 121.5319), the haversine distance with Earth radius 6371 km is
approximately 3.76 km, within 0.2 km (the true value is about 3.75 km,
not 4.5 km). -/
theorem getDistance_taipei_fixture :
    |getDistance 25.0330 121.5654 25.0478 121.5319 - 3.76| ≤ 0.2 := by
  rw [abs_le]
  have h1 := taipei_dist_bounds.1
  have h2 := taipei_dist_bounds.2
  constructor <;> linarith
